/-
  Verification of the Modbus protocol engine in modbus_tool (modbus_tool_cpp/modbus.cpp).

  The development shallowly embeds the pure computational core of the library:
  the CRC-16 engine, expected-response-length computation, the receive state
  machine (modelled over an explicit schedule of read/timeout events), client
  reply validation (modbus_receive) and the server dispatcher
  (modbus_slave_manage).  Machine integers are modelled as Nat (with explicit
  mod where the C code narrows to uint8_t / uint16_t / uint32_t) and as Int
  where the C code uses int.  Byte buffers are List Nat.

  The header modbus.h is not part of the sources; the numeric constants it
  defines (header/checksum lengths, function codes, error sentinels) are
  modelled from the specification and are marked as such below.
-/
import Mathlib

set_option maxHeartbeats 1000000
set_option maxRecDepth 4096

namespace ModbusTool

/-- Modelled from the spec: transport kind of a session (RTU serial framing or
TCP MBAP framing); in the source this is the type_com field with values RTU, TCP. -/
inductive TypeCom where
  | rtu
  | tcp
deriving DecidableEq

/-- Modelled from the spec: RTU header is 1 byte (unit id); HEADER_LENGTH_RTU in modbus.h. -/
def HEADER_LENGTH_RTU : Nat := 1

/-- Modelled from the spec: TCP MBAP header is 7 bytes; HEADER_LENGTH_TCP in modbus.h. -/
def HEADER_LENGTH_TCP : Nat := 7

/-- Modelled from the spec: RTU checksum is the 2-byte CRC; CHECKSUM_LENGTH_RTU in modbus.h. -/
def CHECKSUM_LENGTH_RTU : Nat := 2

/-- Modelled from the spec: TCP frames carry no checksum; CHECKSUM_LENGTH_TCP in modbus.h. -/
def CHECKSUM_LENGTH_TCP : Nat := 0

/-- Modelled from the spec: maximum RTU ADU is 256 bytes; MAX_ADU_LENGTH_RTU in modbus.h. -/
def MAX_ADU_LENGTH_RTU : Nat := 256

/-- Modelled from the spec: maximum TCP ADU is 260 bytes; MAX_ADU_LENGTH_TCP in modbus.h. -/
def MAX_ADU_LENGTH_TCP : Nat := 260

/-- Modelled from the spec: the RTU exception response is header + 2 + CRC = 5
bytes; EXCEPTION_RESPONSE_LENGTH_RTU in modbus.h. -/
def EXCEPTION_RESPONSE_LENGTH_RTU : Nat := 5

/-- Modelled from the spec: an RTU response header holds unit id and function
code, 2 bytes; PRESET_RESPONSE_LENGTH_RTU in modbus.h. -/
def PRESET_RESPONSE_LENGTH_RTU : Nat := 2

/-- Modelled from the spec: a TCP response header holds the 7-byte MBAP prefix
plus the function code, 8 bytes; PRESET_RESPONSE_LENGTH_TCP in modbus.h. -/
def PRESET_RESPONSE_LENGTH_TCP : Nat := 8

/-- Modelled from the spec: unit id 0 is the broadcast address. -/
def MODBUS_BROADCAST_ADDRESS : Nat := 0

/-- Modelled from the spec: function code 0x01, read coils. -/
def FC_READ_COIL_STATUS : Nat := 1

/-- Modelled from the spec: function code 0x02, read discrete inputs. -/
def FC_READ_INPUT_STATUS : Nat := 2

/-- Modelled from the spec: function code 0x03, read holding registers. -/
def FC_READ_HOLDING_REGISTERS : Nat := 3

/-- Modelled from the spec: function code 0x04, read input registers. -/
def FC_READ_INPUT_REGISTERS : Nat := 4

/-- Modelled from the spec: function code 0x05, write single coil. -/
def FC_FORCE_SINGLE_COIL : Nat := 5

/-- Modelled from the spec: function code 0x06, write single register. -/
def FC_PRESET_SINGLE_REGISTER : Nat := 6

/-- Modelled from the spec: function code 0x07, read exception status. -/
def FC_READ_EXCEPTION_STATUS : Nat := 7

/-- Modelled from the spec: function code 0x0F, write multiple coils. -/
def FC_FORCE_MULTIPLE_COILS : Nat := 15

/-- Modelled from the spec: function code 0x10, write multiple registers. -/
def FC_PRESET_MULTIPLE_REGISTERS : Nat := 16

/-- Modelled from the spec: function code 0x11, report slave id. -/
def FC_REPORT_SLAVE_ID : Nat := 17

/-- Modelled from the spec: sentinel for an undefined (device specific) expected
message length, returned by compute_response_length for report-slave-id;
MSG_LENGTH_UNDEFINED in modbus.h. -/
def MSG_LENGTH_UNDEFINED : Int := -1

/-- Modelled from the spec: error sentinels are distinct negative values
(modbus.h); the exact numbers are abstract, only distinctness, negativity and
being outside the range of negated exception codes -11..-1 matter. -/
def INVALID_DATA : Int := -16

/-- Modelled from the spec: error sentinel, CRC mismatch on a received RTU frame. -/
def INVALID_CRC : Int := -17

/-- Modelled from the spec: error sentinel, exception response with an out-of-range code. -/
def INVALID_EXCEPTION_CODE : Int := -18

/-- Modelled from the spec: error sentinel, select failed. -/
def SELECT_FAILURE : Int := -19

/-- Modelled from the spec: error sentinel, read or send failed. -/
def SOCKET_FAILURE : Int := -20

/-- Modelled from the spec: error sentinel, peer closed the connection mid-frame. -/
def CONNECTION_CLOSED : Int := -21

/-- Modelled from the spec: sentinel signalling that an exception frame should
be (re)parsed; MB_EXCEPTION in modbus.h. -/
def MB_EXCEPTION : Int := -22

/-- Modelled from the spec: error sentinel, timeout with nothing received. -/
def SELECT_TIMEOUT : Int := -23

/-- Modelled from the spec: exception code constants are stored negated in
modbus.h (response_exception negates them back to the positive on-wire code);
0x02 is illegal data address. -/
def ILLEGAL_DATA_ADDRESS : Int := -2

/-- Modelled from the spec: negated exception code 0x03, illegal data value. -/
def ILLEGAL_DATA_VALUE : Int := -3

/-- Modelled from the spec: ON value stored in the bit-valued map arrays. -/
def ON : Nat := 1

/-- Modelled from the spec: OFF value stored in the bit-valued map arrays. -/
def OFF : Nat := 0

/-- Source: NB_TAB_ERROR_MSG = 12, the size of TAB_ERROR_MSG in modbus.cpp. -/
def NB_TAB_ERROR_MSG : Nat := 12

/-- Source: TAB_HEADER_LENGTH, indexed by the transport kind. -/
def TAB_HEADER_LENGTH : TypeCom -> Nat
  | .rtu => HEADER_LENGTH_RTU
  | .tcp => HEADER_LENGTH_TCP

/-- Source: TAB_CHECKSUM_LENGTH, indexed by the transport kind. -/
def TAB_CHECKSUM_LENGTH : TypeCom -> Nat
  | .rtu => CHECKSUM_LENGTH_RTU
  | .tcp => CHECKSUM_LENGTH_TCP

/-- Source: TAB_MAX_ADU_LENGTH, indexed by the transport kind. -/
def TAB_MAX_ADU_LENGTH : TypeCom -> Nat
  | .rtu => MAX_ADU_LENGTH_RTU
  | .tcp => MAX_ADU_LENGTH_TCP

/-- Table of CRC values for the high-order byte (source: modbus.cpp, table_crc_hi). -/
def table_crc_hi : List Nat := [
  0, 193, 129, 64, 1, 192, 128, 65, 1, 192, 128, 65, 0, 193, 129, 64,
  1, 192, 128, 65, 0, 193, 129, 64, 0, 193, 129, 64, 1, 192, 128, 65,
  1, 192, 128, 65, 0, 193, 129, 64, 0, 193, 129, 64, 1, 192, 128, 65,
  0, 193, 129, 64, 1, 192, 128, 65, 1, 192, 128, 65, 0, 193, 129, 64,
  1, 192, 128, 65, 0, 193, 129, 64, 0, 193, 129, 64, 1, 192, 128, 65,
  0, 193, 129, 64, 1, 192, 128, 65, 1, 192, 128, 65, 0, 193, 129, 64,
  0, 193, 129, 64, 1, 192, 128, 65, 1, 192, 128, 65, 0, 193, 129, 64,
  1, 192, 128, 65, 0, 193, 129, 64, 0, 193, 129, 64, 1, 192, 128, 65,
  1, 192, 128, 65, 0, 193, 129, 64, 0, 193, 129, 64, 1, 192, 128, 65,
  0, 193, 129, 64, 1, 192, 128, 65, 1, 192, 128, 65, 0, 193, 129, 64,
  0, 193, 129, 64, 1, 192, 128, 65, 1, 192, 128, 65, 0, 193, 129, 64,
  1, 192, 128, 65, 0, 193, 129, 64, 0, 193, 129, 64, 1, 192, 128, 65,
  0, 193, 129, 64, 1, 192, 128, 65, 1, 192, 128, 65, 0, 193, 129, 64,
  1, 192, 128, 65, 0, 193, 129, 64, 0, 193, 129, 64, 1, 192, 128, 65,
  1, 192, 128, 65, 0, 193, 129, 64, 0, 193, 129, 64, 1, 192, 128, 65,
  0, 193, 129, 64, 1, 192, 128, 65, 1, 192, 128, 65, 0, 193, 129, 64]

/-- Table of CRC values for the low-order byte (source: modbus.cpp, table_crc_lo). -/
def table_crc_lo : List Nat := [
  0, 192, 193, 1, 195, 3, 2, 194, 198, 6, 7, 199, 5, 197, 196, 4,
  204, 12, 13, 205, 15, 207, 206, 14, 10, 202, 203, 11, 201, 9, 8, 200,
  216, 24, 25, 217, 27, 219, 218, 26, 30, 222, 223, 31, 221, 29, 28, 220,
  20, 212, 213, 21, 215, 23, 22, 214, 210, 18, 19, 211, 17, 209, 208, 16,
  240, 48, 49, 241, 51, 243, 242, 50, 54, 246, 247, 55, 245, 53, 52, 244,
  60, 252, 253, 61, 255, 63, 62, 254, 250, 58, 59, 251, 57, 249, 248, 56,
  40, 232, 233, 41, 235, 43, 42, 234, 238, 46, 47, 239, 45, 237, 236, 44,
  228, 36, 37, 229, 39, 231, 230, 38, 34, 226, 227, 35, 225, 33, 32, 224,
  160, 96, 97, 161, 99, 163, 162, 98, 102, 166, 167, 103, 165, 101, 100, 164,
  108, 172, 173, 109, 175, 111, 110, 174, 170, 106, 107, 171, 105, 169, 168, 104,
  120, 184, 185, 121, 187, 123, 122, 186, 190, 126, 127, 191, 125, 189, 188, 124,
  180, 116, 117, 181, 119, 183, 182, 118, 114, 178, 179, 115, 177, 113, 112, 176,
  80, 144, 145, 81, 147, 83, 82, 146, 150, 86, 87, 151, 85, 149, 148, 84,
  156, 92, 93, 157, 95, 159, 158, 94, 90, 154, 155, 91, 153, 89, 88, 152,
  136, 72, 73, 137, 75, 139, 138, 74, 78, 142, 143, 79, 141, 77, 76, 140,
  68, 132, 133, 69, 135, 71, 70, 134, 130, 66, 67, 131, 65, 129, 128, 64]

/-- Inverse permutation of table_crc_lo, used only in proofs to establish that
table_crc_lo is injective on indices 0..255. -/
def inv_table_crc_lo : List Nat := [
  0, 3, 6, 5, 15, 12, 9, 10, 30, 29, 24, 27, 17, 18, 23, 20,
  63, 60, 57, 58, 48, 51, 54, 53, 33, 34, 39, 36, 46, 45, 40, 43,
  126, 125, 120, 123, 113, 114, 119, 116, 96, 99, 102, 101, 111, 108, 105, 106,
  65, 66, 71, 68, 78, 77, 72, 75, 95, 92, 89, 90, 80, 83, 86, 85,
  255, 252, 249, 250, 240, 243, 246, 245, 225, 226, 231, 228, 238, 237, 232, 235,
  192, 195, 198, 197, 207, 204, 201, 202, 222, 221, 216, 219, 209, 210, 215, 212,
  129, 130, 135, 132, 142, 141, 136, 139, 159, 156, 153, 154, 144, 147, 150, 149,
  190, 189, 184, 187, 177, 178, 183, 180, 160, 163, 166, 165, 175, 172, 169, 170,
  254, 253, 248, 251, 241, 242, 247, 244, 224, 227, 230, 229, 239, 236, 233, 234,
  193, 194, 199, 196, 206, 205, 200, 203, 223, 220, 217, 218, 208, 211, 214, 213,
  128, 131, 134, 133, 143, 140, 137, 138, 158, 157, 152, 155, 145, 146, 151, 148,
  191, 188, 185, 186, 176, 179, 182, 181, 161, 162, 167, 164, 174, 173, 168, 171,
  1, 2, 7, 4, 14, 13, 8, 11, 31, 28, 25, 26, 16, 19, 22, 21,
  62, 61, 56, 59, 49, 50, 55, 52, 32, 35, 38, 37, 47, 44, 41, 42,
  127, 124, 121, 122, 112, 115, 118, 117, 97, 98, 103, 100, 110, 109, 104, 107,
  64, 67, 70, 69, 79, 76, 73, 74, 94, 93, 88, 91, 81, 82, 87, 84]

/-- Source: one iteration of the while loop of c_modbus::crc16.  The state is
the pair (crc_hi, crc_lo); i = crc_hi XOR byte, then crc_hi = crc_lo XOR
table_crc_hi[i] and crc_lo = table_crc_lo[i]. -/
def crcStep (st : Nat × Nat) (b : Nat) : Nat × Nat :=
  (st.2 ^^^ table_crc_hi.getD (st.1 ^^^ b) 0, table_crc_lo.getD (st.1 ^^^ b) 0)

/-- Source: c_modbus::crc16.  Passes over the first buffer_length bytes of the
buffer starting from crc_hi = crc_lo = 0xFF and returns crc_hi << 8 | crc_lo. -/
def crc16 (buffer : List Nat) (buffer_length : Nat) : Nat :=
  let st := (buffer.take buffer_length).foldl crcStep (255, 255)
  (st.1 <<< 8) ||| st.2

/-- Source: c_modbus::check_crc16.  Computes the CRC of the first
msg_length - 2 bytes, reads the 16-bit value stored hi-then-lo in the last two
bytes, and returns msg_length on a match and INVALID_CRC on a mismatch. -/
def check_crc16 (msg : List Nat) (msg_length : Nat) : Int :=
  let crc_calc := crc16 msg (msg_length - 2)
  let crc_received := ((msg.getD (msg_length - 2) 0) <<< 8) ||| msg.getD (msg_length - 1) 0
  if crc_calc = crc_received then (msg_length : Int) else INVALID_CRC

/-- Source: c_modbus::compute_response_length.  Computes the expected length of
the response to the just-sent query, from the function code byte, the 16-bit
quantity field at offset+3/offset+4 and the data-type tag.  The source lists
data types 6, 7, 8, 9 and the default as separate cases with the identical
body length = 2 + 2 * nb; they are collapsed into the final else here. -/
def compute_response_length (tc : TypeCom) (query : List Nat) (data_type : Nat) : Int :=
  let offset := TAB_HEADER_LENGTH tc
  let fc := query.getD offset 0
  let nb := ((query.getD (offset + 3) 0) <<< 8) ||| query.getD (offset + 4) 0
  if fc = FC_READ_COIL_STATUS ∨ fc = FC_READ_INPUT_STATUS then
    ((2 + nb / 8 + (if nb % 8 ≠ 0 then 1 else 0) : Nat) : Int)
      + (offset : Int) + (TAB_CHECKSUM_LENGTH tc : Int)
  else if fc = FC_READ_HOLDING_REGISTERS ∨ fc = FC_READ_INPUT_REGISTERS then
    let per : Nat :=
      if data_type = 0 ∨ data_type = 1 then 1
      else if data_type = 2 ∨ data_type = 3 then 2
      else if data_type = 4 ∨ data_type = 5 then 4
      else 2
    ((2 + per * nb : Nat) : Int) + (offset : Int) + (TAB_CHECKSUM_LENGTH tc : Int)
  else if fc = FC_READ_EXCEPTION_STATUS then
    (3 : Int) + (offset : Int) + (TAB_CHECKSUM_LENGTH tc : Int)
  else if fc = FC_REPORT_SLAVE_ID then MSG_LENGTH_UNDEFINED
  else (5 : Int) + (offset : Int) + (TAB_CHECKSUM_LENGTH tc : Int)

/-- Source: c_modbus::compute_query_length_header.  Length of the part of an
inbound query that follows the function code, before any embedded byte count. -/
def compute_query_length_header (function : Nat) : Nat :=
  if function ≤ FC_FORCE_SINGLE_COIL ∨ function = FC_PRESET_SINGLE_REGISTER then 4
  else if function = FC_FORCE_MULTIPLE_COILS ∨ function = FC_PRESET_MULTIPLE_REGISTERS then 5
  else if function = FC_REPORT_SLAVE_ID then 1
  else 0

/-- Source: c_modbus::compute_query_length_data.  Reads the embedded byte count
of an inbound query (write-multiple at offset header+5, report-slave-id at
offset header+1, otherwise 0) and adds the checksum length. -/
def compute_query_length_data (tc : TypeCom) (msg : List Nat) : Nat :=
  let function := msg.getD (TAB_HEADER_LENGTH tc) 0
  let length :=
    if function = FC_FORCE_MULTIPLE_COILS ∨ function = FC_PRESET_MULTIPLE_REGISTERS then
      msg.getD (TAB_HEADER_LENGTH tc + 5) 0
    else if function = FC_REPORT_SLAVE_ID then msg.getD (TAB_HEADER_LENGTH tc + 1) 0
    else 0
  length + TAB_CHECKSUM_LENGTH tc

/-- One observable outcome of a select-then-read round in receive_msg: either
the wait timed out with nothing readable, select failed, read returned -1,
read returned 0 (connection closed, the empty chunk), or read delivered a
nonempty chunk of bytes.  A schedule (List Ev) fixes the behaviour of the
transport for one call of receive_msg. -/
inductive Ev where
  | timeout
  | selErr
  | rdErr
  | chunk (bs : List Nat)
deriving DecidableEq

/-- Source: the state enum (FUNCTION, BYTE, COMPLETE) of c_modbus::receive_msg. -/
inductive RState where
  | function
  | byte
  | complete
deriving DecidableEq

/-- Source: the select_ret == 0 branch of the WAIT_DATA macro.  On a timeout it
returns MB_EXCEPTION when the number of bytes received so far (msg_length)
equals header + 2 + checksum, and SELECT_TIMEOUT otherwise. -/
def waitTimeoutRet (tc : TypeCom) (msg_length : Nat) : Int :=
  if msg_length = TAB_HEADER_LENGTH tc + 2 + TAB_CHECKSUM_LENGTH tc then MB_EXCEPTION
  else SELECT_TIMEOUT

/-- Source: the tail of c_modbus::receive_msg after the while loop: RTU frames
are passed through check_crc16, TCP frames return the received byte count. -/
def rmFinish (tc : TypeCom) (msg : List Nat) : Option (Int × List Nat) :=
  match tc with
  | .rtu => some (check_crc16 msg msg.length, msg)
  | .tcp => some ((msg.length : Int), msg)

/-- Source: the while loop of c_modbus::receive_msg, driven by a schedule of
read events.  Each iteration starts with WAIT_DATA (head event: timeout,
select failure, read failure, connection close) and otherwise consumes one
read chunk; incomplete frames continue, the FUNCTION and BYTE states extend
msg_length_computed exactly as the source switch does and an over-long frame
returns INVALID_DATA; when length_to_read becomes 0 the loop exits into
rmFinish.  Returns none when the schedule is exhausted mid-frame, and
otherwise the source return value paired with the bytes accumulated in msg. -/
def rmLoop (tc : TypeCom) (st : RState) (mlc : Int) (msg : List Nat) :
    List Ev → Option (Int × List Nat)
  | [] => none
  | Ev.timeout :: _ => some (waitTimeoutRet tc msg.length, msg)
  | Ev.selErr :: _ => some (SELECT_FAILURE, msg)
  | Ev.rdErr :: _ => some (SOCKET_FAILURE, msg)
  | Ev.chunk [] :: _ => some (CONNECTION_CLOSED, msg)
  | Ev.chunk (b :: bs) :: rest =>
    let msg' := msg ++ b :: bs
    if (msg'.length : Int) < mlc then
      rmLoop tc st mlc msg' rest
    else
      match st with
      | RState.function =>
        let ltr : Int := (compute_query_length_header (msg'.getD (TAB_HEADER_LENGTH tc) 0) : Nat)
        if 0 < ltr then rmLoop tc RState.byte (mlc + ltr) msg' rest
        else rmFinish tc msg'
      | RState.byte =>
        let ltr : Int := (compute_query_length_data tc msg' : Nat)
        if mlc + ltr > (TAB_MAX_ADU_LENGTH tc : Int) then some (INVALID_DATA, msg')
        else if 0 < ltr then rmLoop tc RState.complete (mlc + ltr) msg' rest
        else rmFinish tc msg'
      | RState.complete => rmFinish tc msg'

/-- Source: c_modbus::receive_msg.  With an undefined computed length the
query-receiving path starts in state FUNCTION expecting header + 1 bytes,
otherwise the reply path starts in state COMPLETE expecting the computed
length; in both cases msg starts empty, so the initial WAIT_DATA (the head of
the schedule) sees msg_length = 0. -/
def receive_msg (tc : TypeCom) (msg_length_computed : Int) (events : List Ev) :
    Option (Int × List Nat) :=
  if msg_length_computed = MSG_LENGTH_UNDEFINED then
    rmLoop tc RState.function ((TAB_HEADER_LENGTH tc : Int) + 1) [] events
  else
    rmLoop tc RState.complete msg_length_computed [] events

/-- Source: the ret >= 0 branch of c_modbus::modbus_receive.  Computes
query_nb_value and response_nb_value per the response function code (and, for
register reads, the data-type tag) and returns response_nb_value when the two
agree and INVALID_DATA otherwise.  For data types greater than 5 the source
sets ret = MB_EXCEPTION but then falls out of the switch and overwrites ret
with the result of comparing query_nb_value against the never-initialised
response_nb_value; that indeterminate stack value is modelled by the junk
parameter.  For report-slave-id both counts are ret, so ret is returned. -/
def modbus_receive_check (tc : TypeCom) (query response : List Nat) (data_type : Nat)
    (junk ret : Int) : Int :=
  let offset := TAB_HEADER_LENGTH tc
  let fc := response.getD offset 0
  if fc = FC_READ_COIL_STATUS ∨ fc = FC_READ_INPUT_STATUS then
    let q := ((query.getD (offset + 3) 0) <<< 8) + query.getD (offset + 4) 0
    let query_nb : Int := ((q / 8 + (if q % 8 ≠ 0 then 1 else 0) : Nat) : Int)
    let response_nb : Int := ((response.getD (offset + 1) 0 : Nat) : Int)
    if query_nb = response_nb then response_nb else INVALID_DATA
  else if fc = FC_READ_HOLDING_REGISTERS ∨ fc = FC_READ_INPUT_REGISTERS then
    let query_nb : Int := ((((query.getD (offset + 3) 0) <<< 8) + query.getD (offset + 4) 0 : Nat) : Int)
    let response_nb : Int :=
      if data_type = 0 ∨ data_type = 1 then ((response.getD (offset + 1) 0 : Nat) : Int)
      else if data_type = 2 ∨ data_type = 3 then ((response.getD (offset + 1) 0 / 2 : Nat) : Int)
      else if data_type = 4 ∨ data_type = 5 then ((response.getD (offset + 1) 0 / 4 : Nat) : Int)
      else junk
    if query_nb = response_nb then response_nb else INVALID_DATA
  else if fc = FC_FORCE_MULTIPLE_COILS ∨ fc = FC_PRESET_MULTIPLE_REGISTERS then
    let query_nb : Int := ((((query.getD (offset + 3) 0) <<< 8) + query.getD (offset + 4) 0 : Nat) : Int)
    let response_nb : Int := ((((response.getD (offset + 3) 0) <<< 8) ||| response.getD (offset + 4) 0 : Nat) : Int)
    if query_nb = response_nb then response_nb else INVALID_DATA
  else if fc = FC_REPORT_SLAVE_ID then ret
  else 1

/-- Source: the ret == MB_EXCEPTION branch of c_modbus::modbus_receive.  In RTU
mode the CRC of the 5-byte exception frame is checked first (reassigning ret,
so a CRC pass leaves ret = 5) and a failure is returned; then, if the response
function byte equals 0x80 + the query function byte, exception codes below
NB_TAB_ERROR_MSG are returned negated and larger codes give
INVALID_EXCEPTION_CODE; a function-byte mismatch returns the (possibly
reassigned) ret. -/
def modbus_receive_exception (tc : TypeCom) (query response : List Nat) (ret : Int) : Int :=
  let offset := TAB_HEADER_LENGTH tc
  let ret2 :=
    match tc with
    | .rtu => check_crc16 response EXCEPTION_RESPONSE_LENGTH_RTU
    | .tcp => ret
  if tc = TypeCom.rtu ∧ ret2 < 0 then ret2
  else if 128 + query.getD offset 0 = response.getD offset 0 then
    let exception_code := response.getD (offset + 1) 0
    if exception_code < NB_TAB_ERROR_MSG then -(exception_code : Int)
    else INVALID_EXCEPTION_CODE
  else ret2

/-- Source: c_modbus::modbus_receive.  Receives the reply (expected length per
compute_response_length) over the given schedule and dispatches on the result:
nonnegative results go through the cross-validation of modbus_receive_check,
MB_EXCEPTION goes through modbus_receive_exception, every other error is
returned as is (the SELECT_TIMEOUT branch of the source only logs).  none
means the schedule was exhausted. -/
def modbus_receive (tc : TypeCom) (query : List Nat) (data_type : Nat) (junk : Int)
    (events : List Ev) : Option Int :=
  match receive_msg tc (compute_response_length tc query data_type) events with
  | none => none
  | some (ret, response) =>
    if 0 ≤ ret then some (modbus_receive_check tc query response data_type junk ret)
    else if ret = MB_EXCEPTION then some (modbus_receive_exception tc query response ret)
    else some ret

/-- Source: modbus_mapping_t.  The four map arrays; modbus_mapping_new
allocates each tab array with exactly its nb_X count of entries, so the nb_X
fields are modelled as the list lengths. -/
structure modbus_mapping_t where
  tab_coil_status : List Nat
  tab_input_status : List Nat
  tab_holding_registers : List Nat
  tab_input_registers : List Nat
deriving DecidableEq

/-- Source: sft_t, the slave/function/transaction-id triple used to build
response headers. -/
structure sft_t where
  slave : Nat
  function : Nat
  t_id : Nat
deriving DecidableEq

/-- Source: c_modbus::build_response_basis (RTU and TCP variants).  Byte stores
into the uint8_t response buffer are taken mod 256.  In the TCP variant the
length field at offsets 4 and 5 is left to be fixed by
set_message_length_tcp; the source leaves those two stack bytes unwritten and
they are modelled as 0. -/
def build_response_basis (tc : TypeCom) (sft : sft_t) : List Nat :=
  match tc with
  | .rtu => [sft.slave % 256, sft.function % 256]
  | .tcp => [(sft.t_id >>> 8) % 256, sft.t_id % 256, 0, 0, 0, 0,
             sft.slave % 256, sft.function % 256]

/-- Source: c_modbus::response_exception.  Adds 0x80 to the function code,
builds the response header and appends the negated (hence positive) exception
code as one byte. -/
def response_exception (tc : TypeCom) (sft : sft_t) (exception_code : Int) : List Nat :=
  build_response_basis tc { sft with function := sft.function + 128 }
    ++ [((-exception_code).emod 256).toNat]

/-- Source: c_modbus::set_message_length_tcp.  Writes msg_length - 6 big-endian
into bytes 4 and 5; the arithmetic right shift of the C int is floor division
and the conversion to uint8_t is the nonnegative residue mod 256. -/
def set_message_length_tcp (msg : List Nat) (msg_length : Int) : List Nat :=
  let mbap_length := msg_length - 6
  (msg.set 4 ((mbap_length.fdiv 256).emod 256).toNat).set 5 (mbap_length.emod 256).toNat

/-- Source: c_modbus::modbus_send, modelled as the bytes written to the
transport.  In RTU mode the 16-bit CRC of the frame is appended hi then lo and
the extended frame is written; in TCP mode the MBAP length field is patched
and the frame is written unchanged in length (for a zero-length frame nothing
is written, since send is called with the original query_length). -/
def modbus_send (tc : TypeCom) (query : List Nat) : List Nat :=
  match tc with
  | .rtu =>
    let s_crc := crc16 query query.length
    query ++ [s_crc >>> 8, s_crc &&& 255]
  | .tcp => set_message_length_tcp query (query.length : Int)

/-- Source: the loop of c_modbus::response_io_status; count is the number of
bits still to pack, i the current map index, shift and byte the accumulator.
A full byte (shift = 7) and the final partial byte are flushed to the
response with the uint8_t store modelled as mod 256. -/
def response_io_status_go (tab : List Nat) : Nat → Nat → Nat → Nat → List Nat
  | 0, _, shift, byte => if shift ≠ 0 then [byte % 256] else []
  | count + 1, i, shift, byte =>
    let byte' := byte ||| ((tab.getD i 0) <<< shift)
    if shift = 7 then byte' % 256 :: response_io_status_go tab count (i + 1) 0 0
    else response_io_status_go tab count (i + 1) (shift + 1) byte'

/-- Source: c_modbus::response_io_status, as the list of packed bytes appended
to the response. -/
def response_io_status (address nb : Nat) (tab_io_status : List Nat) : List Nat :=
  response_io_status_go tab_io_status nb address 0 0

/-- Source: the register-serialising loops of the read-holding/input-registers
branches of modbus_slave_manage: each register is appended hi byte then low
byte (tab[i] >> 8 stored to uint8_t, tab[i] & 0xFF). -/
def registers_response_bytes (tab : List Nat) : Nat → Nat → List Nat
  | 0, _ => []
  | count + 1, i =>
    ((tab.getD i 0) >>> 8) % 256 :: ((tab.getD i 0) &&& 255)
      :: registers_response_bytes tab count (i + 1)

/-- Source: the loop of c_modbus::set_bits_from_bytes with j = i - address;
the source shift variable cycles 0..7 and equals j mod 8, the byte index is
j / 8. -/
def set_bits_from_bytes_go (tab_byte : List Nat) (address : Nat) :
    Nat → Nat → List Nat → List Nat
  | 0, _, dest => dest
  | count + 1, j, dest =>
    let v := if tab_byte.getD (j / 8) 0 &&& (1 <<< (j % 8)) ≠ 0 then ON else OFF
    set_bits_from_bytes_go tab_byte address count (j + 1) (dest.set (address + j) v)

/-- Source: c_modbus::set_bits_from_bytes. -/
def set_bits_from_bytes (dest : List Nat) (address nb_bits : Nat) (tab_byte : List Nat) :
    List Nat :=
  set_bits_from_bytes_go tab_byte address nb_bits 0 dest

/-- Source: the register-writing loop of the preset-multiple-registers branch
of modbus_slave_manage: register address + idx receives the big-endian word at
query offset + 6 + 2 * idx, stored into the uint16_t array mod 65536. -/
def preset_registers_go (tc : TypeCom) (query : List Nat) (address : Nat) :
    Nat → Nat → List Nat → List Nat
  | 0, _, tab => tab
  | count + 1, idx, tab =>
    let offset := TAB_HEADER_LENGTH tc
    let v := (((query.getD (offset + 6 + 2 * idx) 0) <<< 8)
      + query.getD (offset + 6 + 2 * idx + 1) 0) % 65536
    preset_registers_go tc query address count (idx + 1) (tab.set (address + idx) v)

/-- Source: c_modbus::modbus_slave_manage, as a pure function from the query,
its length and the map to the bytes transmitted (none when the query is
silently ignored because it is addressed to another unit) and the updated
map.  The final unconditional modbus_send of the source is kept: branches
that build no response still call modbus_send on the empty frame.  Stores of
int expressions into uint8_t / uint16_t variables are taken mod 256 / 65536. -/
def modbus_slave_manage (tc : TypeCom) (param_slave : Nat) (query : List Nat)
    (query_length : Int) (mb_mapping : modbus_mapping_t) :
    Option (List Nat) × modbus_mapping_t :=
  let offset := TAB_HEADER_LENGTH tc
  let slave := query.getD (offset - 1) 0
  let function := query.getD offset 0
  let address := (((query.getD (offset + 1) 0) <<< 8) + query.getD (offset + 2) 0) % 65536
  if slave ≠ param_slave ∧ slave ≠ MODBUS_BROADCAST_ADDRESS then (none, mb_mapping)
  else
    let sft : sft_t :=
      { slave := slave, function := function,
        t_id := if tc = TypeCom.tcp
          then (((query.getD 0 0) <<< 8) + query.getD 1 0) % 65536 else 0 }
    let query_length :=
      if tc = TypeCom.rtu then query_length - (CHECKSUM_LENGTH_RTU : Int) else query_length
    if function = FC_READ_COIL_STATUS then
      let nb := ((query.getD (offset + 3) 0) <<< 8) + query.getD (offset + 4) 0
      if address + nb > mb_mapping.tab_coil_status.length then
        (some (modbus_send tc (response_exception tc sft ILLEGAL_DATA_ADDRESS)), mb_mapping)
      else
        let response := build_response_basis tc sft
          ++ [(nb / 8 + (if nb % 8 ≠ 0 then 1 else 0)) % 256]
          ++ response_io_status address nb mb_mapping.tab_coil_status
        (some (modbus_send tc response), mb_mapping)
    else if function = FC_READ_INPUT_STATUS then
      let nb := ((query.getD (offset + 3) 0) <<< 8) + query.getD (offset + 4) 0
      if address + nb > mb_mapping.tab_input_status.length then
        (some (modbus_send tc (response_exception tc sft ILLEGAL_DATA_ADDRESS)), mb_mapping)
      else
        let response := build_response_basis tc sft
          ++ [(nb / 8 + (if nb % 8 ≠ 0 then 1 else 0)) % 256]
          ++ response_io_status address nb mb_mapping.tab_input_status
        (some (modbus_send tc response), mb_mapping)
    else if function = FC_READ_HOLDING_REGISTERS then
      let nb := ((query.getD (offset + 3) 0) <<< 8) + query.getD (offset + 4) 0
      if address + nb > mb_mapping.tab_holding_registers.length then
        (some (modbus_send tc (response_exception tc sft ILLEGAL_DATA_ADDRESS)), mb_mapping)
      else
        let response := build_response_basis tc sft ++ [(nb <<< 1) % 256]
          ++ registers_response_bytes mb_mapping.tab_holding_registers nb address
        (some (modbus_send tc response), mb_mapping)
    else if function = FC_READ_INPUT_REGISTERS then
      let nb := ((query.getD (offset + 3) 0) <<< 8) + query.getD (offset + 4) 0
      if address + nb > mb_mapping.tab_input_registers.length then
        (some (modbus_send tc (response_exception tc sft ILLEGAL_DATA_ADDRESS)), mb_mapping)
      else
        let response := build_response_basis tc sft ++ [(nb <<< 1) % 256]
          ++ registers_response_bytes mb_mapping.tab_input_registers nb address
        (some (modbus_send tc response), mb_mapping)
    else if function = FC_FORCE_SINGLE_COIL then
      if address ≥ mb_mapping.tab_coil_status.length then
        (some (modbus_send tc (response_exception tc sft ILLEGAL_DATA_ADDRESS)), mb_mapping)
      else
        let data := ((query.getD (offset + 3) 0) <<< 8) + query.getD (offset + 4) 0
        if data = 65280 ∨ data = 0 then
          (some (modbus_send tc (query.take query_length.toNat)),
           { mb_mapping with tab_coil_status :=
               (mb_mapping.tab_coil_status.set address (if data ≠ 0 then ON else OFF)) })
        else
          (some (modbus_send tc (response_exception tc sft ILLEGAL_DATA_VALUE)), mb_mapping)
    else if function = FC_PRESET_SINGLE_REGISTER then
      if address ≥ mb_mapping.tab_holding_registers.length then
        (some (modbus_send tc (response_exception tc sft ILLEGAL_DATA_ADDRESS)), mb_mapping)
      else
        let data := ((query.getD (offset + 3) 0) <<< 8) + query.getD (offset + 4) 0
        (some (modbus_send tc (query.take query_length.toNat)),
         { mb_mapping with tab_holding_registers :=
             (mb_mapping.tab_holding_registers.set address (data % 65536)) })
    else if function = FC_FORCE_MULTIPLE_COILS then
      let nb := ((query.getD (offset + 3) 0) <<< 8) + query.getD (offset + 4) 0
      if address + nb > mb_mapping.tab_coil_status.length then
        (some (modbus_send tc (response_exception tc sft ILLEGAL_DATA_ADDRESS)), mb_mapping)
      else
        let basis := build_response_basis tc sft
        let response := basis ++ (query.drop basis.length).take 4
        (some (modbus_send tc response),
         { mb_mapping with tab_coil_status :=
             (set_bits_from_bytes mb_mapping.tab_coil_status address nb
               (query.drop (offset + 6))) })
    else if function = FC_PRESET_MULTIPLE_REGISTERS then
      let nb := ((query.getD (offset + 3) 0) <<< 8) + query.getD (offset + 4) 0
      if address + nb > mb_mapping.tab_holding_registers.length then
        (some (modbus_send tc (response_exception tc sft ILLEGAL_DATA_ADDRESS)), mb_mapping)
      else
        let basis := build_response_basis tc sft
        let response := basis ++ (query.drop basis.length).take 4
        (some (modbus_send tc response),
         { mb_mapping with tab_holding_registers :=
             (preset_registers_go tc query address nb 0 mb_mapping.tab_holding_registers) })
    else
      (some (modbus_send tc []), mb_mapping)

/-- Source: the value stored into data_dest[i] by the decoding switch of
c_modbus::read_registers.  The switch lacks break statements between the
signed and unsigned cases, so the signed decodes (cases 0, 2, 4) are dead
stores immediately overwritten by the following unsigned decode; cases 6..9
fall through to the default 32-bit big-endian decode (their MB_EXCEPTION
returns are commented out in the source).  The uint8_t/uint16_t/uint32_t
casts are mod 256 / 65536 / 2^32. -/
def read_registers_value (response : List Nat) (offset : Nat) (data_type : Nat) (i : Nat) : Nat :=
  if data_type = 0 ∨ data_type = 1 then
    (response.getD (offset + 2 + i) 0) % 256
  else if data_type = 2 ∨ data_type = 3 then
    (((response.getD (offset + 2 + 2 * i) 0) <<< 8) ||| response.getD (offset + 3 + 2 * i) 0) % 65536
  else
    (((response.getD (offset + 2 + 4 * i) 0) <<< 24)
      ||| ((response.getD (offset + 3 + 4 * i) 0) <<< 16)
      ||| ((response.getD (offset + 4 + 4 * i) 0) <<< 8)
      ||| response.getD (offset + 5 + 4 * i) 0) % 4294967296

/-- Source: the full data_dest array written by c_modbus::read_registers when
modbus_receive returned the nonnegative value count ret. -/
def read_registers_data (response : List Nat) (offset : Nat) (data_type : Nat) (ret : Nat) :
    List Nat :=
  (List.range ret).map (read_registers_value response offset data_type)

/-! Helper lemmas about lists, the CRC tables and the CRC step function. -/

/-- getD of an append, index inside the left list. -/
theorem getD_append_lt {l t : List Nat} {i : Nat} (h : i < l.length) :
    (l ++ t).getD i 0 = l.getD i 0 := by
  simp [List.getD_eq_getElem?_getD, List.getElem?_append_left h]

/-- getD of an append, index shifted past the left list. -/
theorem getD_append_add {l t : List Nat} (k : Nat) :
    (l ++ t).getD (l.length + k) 0 = t.getD k 0 := by
  simp [List.getD_eq_getElem?_getD, List.getElem?_append_right (Nat.le_add_right l.length k)]

/-- getD of a take, index below the count. -/
theorem getD_take_lt {l : List Nat} {n i : Nat} (h : i < n) :
    (l.take n).getD i 0 = l.getD i 0 := by
  simp [List.getD_eq_getElem?_getD, List.getElem?_take_of_lt h]

/-- A nonzero getD means the index is within the list. -/
theorem lt_length_of_getD_ne {l : List Nat} {i : Nat} (h : l.getD i 0 ≠ 0) : i < l.length := by
  by_contra hc
  exact h (List.getD_eq_default l 0 (Nat.le_of_not_lt hc))

/-- Setting an index at or past the taken prefix does not change the prefix. -/
theorem take_set_of_le {l : List Nat} {n i : Nat} (b : Nat) (h : n ≤ i) :
    (l.set i b).take n = l.take n := by
  rw [List.set_take]
  exact List.set_eq_of_length_le (by simp [List.length_take]; omega) ..

/-- Every byte of table_crc_hi at an index below 256 is below 256. -/
theorem table_crc_hi_lt_aux : ∀ i < 256, table_crc_hi.getD i 0 < 256 := by decide

/-- Every byte of table_crc_lo at an index below 256 is below 256. -/
theorem table_crc_lo_lt_aux : ∀ i < 256, table_crc_lo.getD i 0 < 256 := by decide

/-- inv_table_crc_lo is a left inverse of table_crc_lo on 0..255. -/
theorem table_crc_lo_leftinv : ∀ i < 256,
    inv_table_crc_lo.getD (table_crc_lo.getD i 0) 0 = i := by decide

/-- table_crc_hi has 256 entries. -/
theorem table_crc_hi_len : table_crc_hi.length = 256 := by decide

/-- table_crc_lo has 256 entries. -/
theorem table_crc_lo_len : table_crc_lo.length = 256 := by decide

/-- Every table_crc_hi lookup is a byte (out-of-range lookups default to 0). -/
theorem table_crc_hi_lt (i : Nat) : table_crc_hi.getD i 0 < 256 := by
  by_cases h : i < 256
  · exact table_crc_hi_lt_aux i h
  · rw [List.getD_eq_default _ _ (by rw [table_crc_hi_len]; omega)]; omega

/-- Every table_crc_lo lookup is a byte (out-of-range lookups default to 0). -/
theorem table_crc_lo_lt (i : Nat) : table_crc_lo.getD i 0 < 256 := by
  by_cases h : i < 256
  · exact table_crc_lo_lt_aux i h
  · rw [List.getD_eq_default _ _ (by rw [table_crc_lo_len]; omega)]; omega

/-- Xor of two bytes is a byte. -/
theorem xor_lt_256 {a b : Nat} (ha : a < 256) (hb : b < 256) : a ^^^ b < 256 := by
  have h : (256 : Nat) = 2 ^ 8 := by norm_num
  rw [h] at ha hb ⊢
  exact Nat.xor_lt_two_pow ha hb

/-- table_crc_lo is injective on byte indices. -/
theorem table_crc_lo_inj {a b : Nat} (ha : a < 256) (hb : b < 256)
    (h : table_crc_lo.getD a 0 = table_crc_lo.getD b 0) : a = b := by
  have h1 := table_crc_lo_leftinv a ha
  have h2 := table_crc_lo_leftinv b hb
  rw [h] at h1
  omega

/-- Xor cancellation on the left. -/
theorem xor_left_cancel {a b c : Nat} (h : a ^^^ b = a ^^^ c) : b = c := by
  have hb : b = a ^^^ (a ^^^ b) := by rw [← Nat.xor_assoc, Nat.xor_self, Nat.zero_xor]
  rw [hb, h, ← Nat.xor_assoc, Nat.xor_self, Nat.zero_xor]

/-- Xor cancellation on the right. -/
theorem xor_right_cancel {a b c : Nat} (h : a ^^^ c = b ^^^ c) : a = b := by
  have hb : a = (a ^^^ c) ^^^ c := by rw [Nat.xor_assoc, Nat.xor_self, Nat.xor_zero]
  rw [hb, h, Nat.xor_assoc, Nat.xor_self, Nat.xor_zero]

/-- The CRC step keeps both state bytes below 256. -/
theorem crcStep_bound {st : Nat × Nat} (h2 : st.2 < 256) (b : Nat) :
    (crcStep st b).1 < 256 ∧ (crcStep st b).2 < 256 :=
  ⟨xor_lt_256 h2 (table_crc_hi_lt _), table_crc_lo_lt _⟩

/-- The CRC step is injective in the processed byte. -/
theorem crcStep_byte_inj {st : Nat × Nat} {b c : Nat} (hst : st.1 < 256)
    (hb : b < 256) (hc : c < 256) (h : crcStep st b = crcStep st c) : b = c := by
  have h2 : table_crc_lo.getD (st.1 ^^^ b) 0 = table_crc_lo.getD (st.1 ^^^ c) 0 :=
    congrArg Prod.snd h
  exact xor_left_cancel (table_crc_lo_inj (xor_lt_256 hst hb) (xor_lt_256 hst hc) h2)

/-- The CRC step is injective in the state for a fixed byte. -/
theorem crcStep_state_inj {s t : Nat × Nat} {b : Nat} (hs : s.1 < 256) (ht : t.1 < 256)
    (hb : b < 256) (h : crcStep s b = crcStep t b) : s = t := by
  have h2 : table_crc_lo.getD (s.1 ^^^ b) 0 = table_crc_lo.getD (t.1 ^^^ b) 0 :=
    congrArg Prod.snd h
  have hidx : s.1 ^^^ b = t.1 ^^^ b :=
    table_crc_lo_inj (xor_lt_256 hs hb) (xor_lt_256 ht hb) h2
  have h1eq : s.1 = t.1 := xor_right_cancel hidx
  have hfst : s.2 ^^^ table_crc_hi.getD (s.1 ^^^ b) 0
      = t.2 ^^^ table_crc_hi.getD (t.1 ^^^ b) 0 := congrArg Prod.fst h
  rw [hidx] at hfst
  exact Prod.ext h1eq (xor_right_cancel hfst)

/-- Folding the CRC step keeps both state bytes below 256. -/
theorem foldl_crcStep_bound : ∀ (L : List Nat) (s : Nat × Nat), s.1 < 256 → s.2 < 256 →
    (L.foldl crcStep s).1 < 256 ∧ (L.foldl crcStep s).2 < 256 := by
  intro L
  induction L with
  | nil => intro s h1 h2; exact ⟨h1, h2⟩
  | cons b L ih =>
    intro s h1 h2
    rw [List.foldl_cons]
    exact ih _ (crcStep_bound h2 b).1 (crcStep_bound h2 b).2

/-- Folding the CRC step over a list of bytes is injective in the initial state. -/
theorem foldl_crcStep_inj : ∀ (L : List Nat), (∀ x ∈ L, x < 256) →
    ∀ s t : Nat × Nat, s.1 < 256 → s.2 < 256 → t.1 < 256 → t.2 < 256 →
    L.foldl crcStep s = L.foldl crcStep t → s = t := by
  intro L
  induction L with
  | nil => intro _ s t _ _ _ _ h; simpa using h
  | cons b L ih =>
    intro hmem s t hs1 hs2 ht1 ht2 h
    rw [List.foldl_cons, List.foldl_cons] at h
    have hb : b < 256 := hmem b (by simp)
    have hstep := ih (fun x hx => hmem x (by simp [hx])) _ _
      (crcStep_bound hs2 b).1 (crcStep_bound hs2 b).2
      (crcStep_bound ht2 b).1 (crcStep_bound ht2 b).2 h
    exact crcStep_state_inj hs1 ht1 hb hstep

/-- Combining two bytes with shift-or is plain positional arithmetic. -/
theorem combine_eq (hi lo : Nat) (hlo : lo < 256) : (hi <<< 8) ||| lo = 256 * hi + lo := by
  have h : (256 : Nat) = 2 ^ 8 := by norm_num
  rw [Nat.shiftLeft_eq, Nat.mul_comm, h]
  exact (Nat.mul_add_lt_is_or (by rw [← h]; exact hlo) hi).symm

/-- Combining two bytes is injective. -/
theorem combine_inj {h1 l1 h2 l2 : Nat} (hl1 : l1 < 256) (hl2 : l2 < 256)
    (h : (h1 <<< 8) ||| l1 = (h2 <<< 8) ||| l2) : h1 = h2 ∧ l1 = l2 := by
  rw [combine_eq _ _ hl1, combine_eq _ _ hl2] at h
  omega

/-- crc16 over the whole list, as a fold. -/
theorem crc16_eq_fold (S : List Nat) :
    crc16 S S.length = ((S.foldl crcStep (255, 255)).1 <<< 8) ||| (S.foldl crcStep (255, 255)).2 := by
  simp [crc16, List.take_length]

/-- Changing one in-range byte of a byte list changes its crc16. -/
theorem crc16_set_ne {S : List Nat} (hb : ∀ x ∈ S, x < 256) {i : Nat} (hi : i < S.length)
    {b : Nat} (hb256 : b < 256) (hne : b ≠ S.getD i 0) :
    crc16 (S.set i b) S.length ≠ crc16 S S.length := by
  intro heq
  have hgetd : S.getD i 0 = S[i] := List.getD_eq_getElem S 0 hi
  have hdecomp : S = S.take i ++ S.getD i 0 :: S.drop (i + 1) := by
    rw [hgetd, ← List.drop_eq_getElem_cons hi, List.take_append_drop]
  have hset : S.set i b = S.take i ++ b :: S.drop (i + 1) :=
    List.set_eq_take_cons_drop b hi
  have hlen : (S.set i b).length = S.length := List.length_set ..
  have hcrc1 : crc16 (S.set i b) S.length = crc16 (S.set i b) (S.set i b).length := by rw [hlen]
  have efold1 : (S.set i b).foldl crcStep (255, 255)
      = (S.drop (i + 1)).foldl crcStep
          (crcStep ((S.take i).foldl crcStep (255, 255)) b) := by
    rw [hset, List.foldl_append, List.foldl_cons]
  have efold2 : S.foldl crcStep (255, 255)
      = (S.drop (i + 1)).foldl crcStep
          (crcStep ((S.take i).foldl crcStep (255, 255)) (S.getD i 0)) := by
    conv_lhs => rw [hdecomp]
    rw [List.foldl_append, List.foldl_cons]
  rw [hcrc1, crc16_eq_fold, crc16_eq_fold, efold1, efold2] at heq
  set sA := (S.take i).foldl crcStep (255, 255) with hsA
  have hsAb : sA.1 < 256 ∧ sA.2 < 256 :=
    foldl_crcStep_bound _ _ (by norm_num) (by norm_num)
  have hCb : ∀ x ∈ S.drop (i + 1), x < 256 := fun x hx => hb x (List.drop_subset _ _ hx)
  have hxb : S.getD i 0 < 256 := hb _ (by rw [hgetd]; exact S.getElem_mem hi)
  have hfoldB := foldl_crcStep_bound (S.drop (i + 1)) (crcStep sA b)
    (crcStep_bound hsAb.2 b).1 (crcStep_bound hsAb.2 b).2
  have hfoldX := foldl_crcStep_bound (S.drop (i + 1)) (crcStep sA (S.getD i 0))
    (crcStep_bound hsAb.2 _).1 (crcStep_bound hsAb.2 _).2
  have hstates := combine_inj hfoldB.2 hfoldX.2 heq
  have hfold_eq : (S.drop (i + 1)).foldl crcStep (crcStep sA b)
      = (S.drop (i + 1)).foldl crcStep (crcStep sA (S.getD i 0)) :=
    Prod.ext hstates.1 hstates.2
  have hstep := foldl_crcStep_inj _ hCb _ _
    (crcStep_bound hsAb.2 b).1 (crcStep_bound hsAb.2 b).2
    (crcStep_bound hsAb.2 _).1 (crcStep_bound hsAb.2 _).2 hfold_eq
  exact hne (crcStep_byte_inj hsAb.1 hb256 hxb hstep)

/-- crc16 of a byte list is a 16-bit value. -/
theorem crc16_lt (S : List Nat) (n : Nat) : crc16 S n < 65536 := by
  have hbound := foldl_crcStep_bound (S.take n) (255, 255) (by norm_num) (by norm_num)
  rw [crc16]
  rw [combine_eq _ _ hbound.2]
  omega

/-- Splitting crc16 into its high byte and low byte and recombining is the
identity, and the two bytes are below 256. -/
theorem crc16_split (S : List Nat) (n : Nat) :
    ((crc16 S n >>> 8) <<< 8) ||| (crc16 S n &&& 255) = crc16 S n ∧
    crc16 S n >>> 8 < 256 ∧ crc16 S n &&& 255 < 256 := by
  have h16 := crc16_lt S n
  have h255 : (255 : Nat) = 2 ^ 8 - 1 := by norm_num
  have hmod : crc16 S n &&& 255 = crc16 S n % 256 := by
    rw [h255, Nat.and_pow_two_sub_one_eq_mod]
  have hdiv : crc16 S n >>> 8 = crc16 S n / 256 := by
    rw [Nat.shiftRight_eq_div_pow]
  have hmlt : crc16 S n % 256 < 256 := Nat.mod_lt _ (by norm_num)
  refine ⟨?_, ?_, ?_⟩
  · rw [hmod, hdiv, combine_eq _ _ hmlt]
    omega
  · rw [hdiv]; omega
  · rw [hmod]; exact hmlt

/-- check_crc16 accepts a frame built by appending the CRC hi byte then lo byte. -/
theorem check_crc16_append (S : List Nat) :
    check_crc16 (S ++ [crc16 S S.length >>> 8, crc16 S S.length &&& 255]) (S.length + 2)
      = ((S.length : Int) + 2) := by
  have hsplit := crc16_split S S.length
  simp only [check_crc16]
  have harith : S.length + 2 - 2 = S.length := by omega
  have harith1 : S.length + 2 - 1 = S.length + 1 := by omega
  rw [harith, harith1]
  have hcalc : crc16 (S ++ [crc16 S S.length >>> 8, crc16 S S.length &&& 255]) S.length
      = crc16 S S.length := by
    unfold crc16
    rw [List.take_left' rfl, List.take_length]
  have hr0 : (S ++ [crc16 S S.length >>> 8, crc16 S S.length &&& 255]).getD S.length 0
      = crc16 S S.length >>> 8 := by
    have := getD_append_add (l := S) (t := [crc16 S S.length >>> 8, crc16 S S.length &&& 255]) 0
    simpa using this
  have hr1 : (S ++ [crc16 S S.length >>> 8, crc16 S S.length &&& 255]).getD (S.length + 1) 0
      = crc16 S S.length &&& 255 := by
    have := getD_append_add (l := S) (t := [crc16 S S.length >>> 8, crc16 S S.length &&& 255]) 1
    simpa using this
  rw [hcalc, hr0, hr1, hsplit.1, if_pos rfl]
  push_cast
  ring

/-- C1: for a byte sequence S of length 1..254, appending crc16 of S as the two
bytes hi then lo (exactly what modbus_send does for RTU) yields a message that
check_crc16 accepts, returning the full message length; and changing exactly
one byte anywhere in that message (to any other byte value) makes check_crc16
return INVALID_CRC. -/
theorem check_crc16_roundtrip_flip (S : List Nat) (h1 : 1 ≤ S.length) (h2 : S.length ≤ 254)
    (hb : ∀ x ∈ S, x < 256) :
    check_crc16 (modbus_send TypeCom.rtu S) (S.length + 2) = ((S.length : Int) + 2) ∧
    ∀ i b, i < S.length + 2 → b < 256 → b ≠ (modbus_send TypeCom.rtu S).getD i 0 →
      check_crc16 ((modbus_send TypeCom.rtu S).set i b) (S.length + 2) = INVALID_CRC := by
  have hsend : modbus_send TypeCom.rtu S
      = S ++ [crc16 S S.length >>> 8, crc16 S S.length &&& 255] := rfl
  have hsplit := crc16_split S S.length
  have harith : S.length + 2 - 2 = S.length := by omega
  have harith1 : S.length + 2 - 1 = S.length + 1 := by omega
  constructor
  · rw [hsend]
    exact check_crc16_append S
  · intro i b hilt hblt hbne
    rw [hsend] at hbne ⊢
    rcases Nat.lt_or_ge i S.length with hcase | hcase
    · -- the flipped byte is inside S: the computed CRC changes, the stored one does not
      have hbne' : b ≠ S.getD i 0 := by
        rwa [getD_append_lt hcase] at hbne
      have hseteq : (S ++ [crc16 S S.length >>> 8, crc16 S S.length &&& 255]).set i b
          = S.set i b ++ [crc16 S S.length >>> 8, crc16 S S.length &&& 255] :=
        List.set_append_left _ _ hcase
      rw [hseteq]
      simp only [check_crc16]
      rw [harith, harith1]
      have hlenset : (S.set i b).length = S.length := List.length_set ..
      have hcalc : crc16 (S.set i b ++ [crc16 S S.length >>> 8, crc16 S S.length &&& 255])
          S.length = crc16 (S.set i b) S.length := by
        unfold crc16
        rw [List.take_left' hlenset]
        rw [show (S.set i b).take S.length = (S.set i b).take (S.set i b).length by rw [hlenset],
          List.take_length]
      have hr0 : (S.set i b ++ [crc16 S S.length >>> 8, crc16 S S.length &&& 255]).getD
          S.length 0 = crc16 S S.length >>> 8 := by
        have := getD_append_add (l := S.set i b)
          (t := [crc16 S S.length >>> 8, crc16 S S.length &&& 255]) 0
        rw [hlenset] at this
        simpa using this
      have hr1 : (S.set i b ++ [crc16 S S.length >>> 8, crc16 S S.length &&& 255]).getD
          (S.length + 1) 0 = crc16 S S.length &&& 255 := by
        have := getD_append_add (l := S.set i b)
          (t := [crc16 S S.length >>> 8, crc16 S S.length &&& 255]) 1
        rw [hlenset] at this
        simpa using this
      rw [hcalc, hr0, hr1, hsplit.1]
      rw [if_neg (crc16_set_ne hb hcase hblt hbne')]
    · -- the flipped byte is one of the two CRC bytes: the stored CRC changes
      have hi2 : i = S.length ∨ i = S.length + 1 := by omega
      rcases hi2 with hi2 | hi2
      · subst hi2
        have hbne' : b ≠ crc16 S S.length >>> 8 := by
          have := getD_append_add (l := S)
            (t := [crc16 S S.length >>> 8, crc16 S S.length &&& 255]) 0
          simp only [Nat.add_zero] at this
          rwa [this] at hbne
        have hseteq : (S ++ [crc16 S S.length >>> 8, crc16 S S.length &&& 255]).set S.length b
            = S ++ [b, crc16 S S.length &&& 255] := by
          rw [List.set_append_right _ _ (Nat.le_refl _)]
          simp
        rw [hseteq]
        simp only [check_crc16]
        rw [harith, harith1]
        have hcalc : crc16 (S ++ [b, crc16 S S.length &&& 255]) S.length
            = crc16 S S.length := by
          unfold crc16
          rw [List.take_left' rfl, List.take_length]
        have hr0 : (S ++ [b, crc16 S S.length &&& 255]).getD S.length 0 = b := by
          have := getD_append_add (l := S) (t := [b, crc16 S S.length &&& 255]) 0
          simpa using this
        have hr1 : (S ++ [b, crc16 S S.length &&& 255]).getD (S.length + 1) 0
            = crc16 S S.length &&& 255 := by
          have := getD_append_add (l := S) (t := [b, crc16 S S.length &&& 255]) 1
          simpa using this
        rw [hcalc, hr0, hr1]
        refine if_neg fun hcontra => ?_
        have := combine_inj hsplit.2.2 hsplit.2.2 (hsplit.1.trans hcontra)
        exact hbne' this.1.symm
      · subst hi2
        have hbne' : b ≠ crc16 S S.length &&& 255 := by
          have := getD_append_add (l := S)
            (t := [crc16 S S.length >>> 8, crc16 S S.length &&& 255]) 1
          rwa [this] at hbne
        have hseteq : (S ++ [crc16 S S.length >>> 8, crc16 S S.length &&& 255]).set
            (S.length + 1) b = S ++ [crc16 S S.length >>> 8, b] := by
          rw [List.set_append_right _ _ (by omega)]
          have : S.length + 1 - S.length = 1 := by omega
          rw [this]
          simp
        rw [hseteq]
        simp only [check_crc16]
        rw [harith, harith1]
        have hcalc : crc16 (S ++ [crc16 S S.length >>> 8, b]) S.length
            = crc16 S S.length := by
          unfold crc16
          rw [List.take_left' rfl, List.take_length]
        have hr0 : (S ++ [crc16 S S.length >>> 8, b]).getD S.length 0
            = crc16 S S.length >>> 8 := by
          have := getD_append_add (l := S) (t := [crc16 S S.length >>> 8, b]) 0
          simpa using this
        have hr1 : (S ++ [crc16 S S.length >>> 8, b]).getD (S.length + 1) 0 = b := by
          have := getD_append_add (l := S) (t := [crc16 S S.length >>> 8, b]) 1
          simpa using this
        rw [hcalc, hr0, hr1]
        refine if_neg fun hcontra => ?_
        have := combine_inj hsplit.2.2 hblt (hsplit.1.trans hcontra)
        exact hbne' this.2.symm

/-- Witness for C1 at the concrete byte sequence [1, 3]: the round trip is
accepted with the full length 4, and flipping byte 0 from 1 to 2 is rejected
with INVALID_CRC. -/
theorem check_crc16_roundtrip_flip_witness :
    (1 ≤ ([1, 3] : List Nat).length ∧ ([1, 3] : List Nat).length ≤ 254
      ∧ ∀ x ∈ ([1, 3] : List Nat), x < 256) ∧
    check_crc16 (modbus_send TypeCom.rtu [1, 3]) 4 = 4 ∧
    check_crc16 ((modbus_send TypeCom.rtu [1, 3]).set 0 2) 4 = INVALID_CRC :=
  ⟨⟨by decide, by decide, by decide⟩,
   (check_crc16_roundtrip_flip [1, 3] (by decide) (by decide) (by decide)).1,
   (check_crc16_roundtrip_flip [1, 3] (by decide) (by decide) (by decide)).2 0 2
     (by decide) (by decide) (by decide)⟩

/-- C2: evaluation of the code at the failing input.  For a read-holding-
registers query of quantity 1 with data type 6 (I64), compute_response_length
returns 7 in RTU mode (header 1 + 2 + 2 * 1 + CRC 2), i.e. it treats I64 as 2
bytes per value, whereas the claim prescribes 8 bytes per value, which would
give 13; likewise data type 8 (F32) yields 7 instead of the claimed
1 + 2 + 4 * 1 + 2 = 9. -/
theorem compute_response_length_wide_types_two_bytes :
    compute_response_length TypeCom.rtu [1, 3, 0, 0, 0, 1] 6 = 7 ∧ (7 : Int) ≠ 13 ∧
    compute_response_length TypeCom.rtu [1, 3, 0, 0, 0, 1] 8 = 7 ∧ (7 : Int) ≠ 9 := by
  decide

/-- C3 (amended): a timeout on the initial wait with no byte received always
returns SELECT_TIMEOUT, whatever the expected length; the WAIT_DATA macro
compares the byte count received so far (msg_length, which is 0 at the
initial wait) with header + 2 + checksum, so MB_EXCEPTION is produced only by
a later inter-character wait, exactly when the bytes already received number
header + 2 + checksum. -/
theorem receive_msg_timeout_behaviour (tc : TypeCom) (mlc : Int) :
    (∀ rest, receive_msg tc mlc (Ev.timeout :: rest) = some (SELECT_TIMEOUT, [])) ∧
    (∀ b bs rest, mlc ≠ MSG_LENGTH_UNDEFINED → (((b :: bs : List Nat)).length : Int) < mlc →
      receive_msg tc mlc (Ev.chunk (b :: bs) :: Ev.timeout :: rest)
        = some (waitTimeoutRet tc (b :: bs).length, b :: bs)) := by
  constructor
  · intro rest
    by_cases h : mlc = MSG_LENGTH_UNDEFINED <;> cases tc <;>
      simp [receive_msg, rmLoop, waitTimeoutRet, h, TAB_HEADER_LENGTH, TAB_CHECKSUM_LENGTH,
        HEADER_LENGTH_RTU, HEADER_LENGTH_TCP, CHECKSUM_LENGTH_RTU, CHECKSUM_LENGTH_TCP]
  · intro b bs rest hundef hlen
    rw [receive_msg, if_neg hundef]
    rw [rmLoop]
    simp only [List.nil_append]
    rw [if_pos hlen]
    rw [rmLoop]

/-- C3 counterexample: with expected length 5, which is exactly the RTU
exception-response length, an initial timeout with nothing received makes
receive_msg return SELECT_TIMEOUT and not the MB_EXCEPTION the claim
requires. -/
theorem receive_msg_initial_timeout_counterexample :
    receive_msg TypeCom.rtu 5 [Ev.timeout] = some (SELECT_TIMEOUT, [])
      ∧ SELECT_TIMEOUT ≠ MB_EXCEPTION := by decide

/-- Witness for the amended C3: a 5-byte partial frame followed by a timeout
yields MB_EXCEPTION in RTU mode, since 5 = header + 2 + CRC. -/
theorem receive_msg_timeout_behaviour_witness :
    receive_msg TypeCom.rtu 7 [Ev.chunk [1, 131, 2, 193, 241], Ev.timeout]
      = some (MB_EXCEPTION, [1, 131, 2, 193, 241]) := by
  have h := (receive_msg_timeout_behaviour TypeCom.rtu 7).2 1 [131, 2, 193, 241] []
    (by decide) (by decide)
  rw [h]
  decide

/-- Every WAIT_DATA timeout result is negative. -/
theorem waitTimeoutRet_neg (tc : TypeCom) (n : Nat) : waitTimeoutRet tc n < 0 := by
  unfold waitTimeoutRet
  split <;> decide

/-- A nonnegative rmFinish result is the received byte count, and in RTU mode
it certifies that check_crc16 accepts the frame. -/
theorem rmFinish_nonneg {tc : TypeCom} {msg : List Nat} {r : Int} {m : List Nat}
    (h : rmFinish tc msg = some (r, m)) (hr : 0 ≤ r) :
    r = (m.length : Int) ∧ (tc = TypeCom.rtu → check_crc16 m m.length = (m.length : Int)) := by
  cases tc with
  | rtu =>
    simp only [rmFinish, Option.some.injEq, Prod.mk.injEq] at h
    obtain ⟨h1, h2⟩ := h
    subst h2
    simp only [check_crc16] at h1 ⊢
    split at h1
    next hcond =>
      exact ⟨h1.symm, fun _ => by rw [if_pos hcond]⟩
    next =>
      subst h1
      exact absurd hr (by decide)
  | tcp =>
    simp only [rmFinish, Option.some.injEq, Prod.mk.injEq] at h
    obtain ⟨h1, h2⟩ := h
    subst h2
    exact ⟨h1.symm, fun hc => nomatch hc⟩

/-- A nonnegative result of the receive loop is the received byte count and,
in RTU mode, certifies the CRC of the accumulated frame; every error path of
the loop is a negative sentinel. -/
theorem rmLoop_nonneg (tc : TypeCom) : ∀ (ev : List Ev) (st : RState) (mlc : Int)
    (msg : List Nat) (r : Int) (m : List Nat),
    rmLoop tc st mlc msg ev = some (r, m) → 0 ≤ r →
    r = (m.length : Int) ∧ (tc = TypeCom.rtu → check_crc16 m m.length = (m.length : Int)) := by
  intro ev
  induction ev with
  | nil => intro st mlc msg r m h hr; simp [rmLoop] at h
  | cons e rest ih =>
    intro st mlc msg r m h hr
    cases e with
    | timeout =>
      simp only [rmLoop, Option.some.injEq, Prod.mk.injEq] at h
      obtain ⟨h1, _⟩ := h
      subst h1
      exact absurd hr (by have := waitTimeoutRet_neg tc msg.length; omega)
    | selErr =>
      simp only [rmLoop, Option.some.injEq, Prod.mk.injEq] at h
      obtain ⟨h1, _⟩ := h
      subst h1
      exact absurd hr (by decide)
    | rdErr =>
      simp only [rmLoop, Option.some.injEq, Prod.mk.injEq] at h
      obtain ⟨h1, _⟩ := h
      subst h1
      exact absurd hr (by decide)
    | chunk bs =>
      cases bs with
      | nil =>
        simp only [rmLoop, Option.some.injEq, Prod.mk.injEq] at h
        obtain ⟨h1, _⟩ := h
        subst h1
        exact absurd hr (by decide)
      | cons b bs =>
        simp only [rmLoop] at h
        split at h
        · exact ih _ _ _ _ _ h hr
        · split at h
          · -- FUNCTION state
            split at h
            · exact ih _ _ _ _ _ h hr
            · exact rmFinish_nonneg h hr
          · -- BYTE state
            split at h
            · simp only [Option.some.injEq, Prod.mk.injEq] at h
              obtain ⟨h1, _⟩ := h
              subst h1
              exact absurd hr (by decide)
            · split at h
              · exact ih _ _ _ _ _ h hr
              · exact rmFinish_nonneg h hr
          · -- COMPLETE state
            exact rmFinish_nonneg h hr

/-- C4 (amended): receive_msg delivers a nonnegative result only together with
transport integrity in RTU mode: the result is the received byte count and,
for RTU, check_crc16 accepts the accumulated frame.  In TCP mode the byte
count is returned with no MBAP length-field consistency check at all. -/
theorem receive_msg_nonneg_integrity (tc : TypeCom) (mlc : Int) (ev : List Ev) (r : Int)
    (m : List Nat) (h : receive_msg tc mlc ev = some (r, m)) (hr : 0 ≤ r) :
    r = (m.length : Int) ∧ (tc = TypeCom.rtu → check_crc16 m m.length = (m.length : Int)) := by
  unfold receive_msg at h
  split at h <;> exact rmLoop_nonneg tc ev _ _ _ _ _ h hr

/-- C4 counterexample: a 9-byte TCP frame whose MBAP length field declares 0
(the consistent value for 9 received bytes would be 3) is still delivered as
the nonnegative success 9 by receive_msg. -/
theorem receive_msg_tcp_no_mbap_check :
    receive_msg TypeCom.tcp 9 [Ev.chunk [0, 1, 0, 0, 0, 0, 1, 2, 3]]
      = some (9, [0, 1, 0, 0, 0, 0, 1, 2, 3]) ∧
    0 ≤ (9 : Int) ∧
    ((([0, 1, 0, 0, 0, 0, 1, 2, 3] : List Nat).getD 4 0) <<< 8)
      ||| ([0, 1, 0, 0, 0, 0, 1, 2, 3] : List Nat).getD 5 0 ≠ 9 - 6 := by decide

/-- Witness for C4 at a concrete accepted RTU frame. -/
theorem receive_msg_nonneg_integrity_witness :
    receive_msg TypeCom.rtu 4 [Ev.chunk [1, 3, 64, 33]] = some (4, [1, 3, 64, 33]) ∧
    (4 : Int) = (([1, 3, 64, 33] : List Nat).length : Int) ∧
    check_crc16 [1, 3, 64, 33] ([1, 3, 64, 33] : List Nat).length
      = (([1, 3, 64, 33] : List Nat).length : Int) :=
  ⟨by decide,
   (receive_msg_nonneg_integrity TypeCom.rtu 4 [Ev.chunk [1, 3, 64, 33]] 4 [1, 3, 64, 33]
     (by decide) (by decide)).1,
   (receive_msg_nonneg_integrity TypeCom.rtu 4 [Ev.chunk [1, 3, 64, 33]] 4 [1, 3, 64, 33]
     (by decide) (by decide)).2 rfl⟩

/-- C5 (amended): when modbus_receive sees the MB_EXCEPTION sentinel and the
response function byte equals 0x80 + the query function byte (with the RTU
CRC of the 5-byte exception frame passing), every exception code below 12
(that is 0x00..0x0B) is returned negated, the code 0x00 giving the
nonnegative result 0, and only codes 0x0C and above yield
INVALID_EXCEPTION_CODE. -/
theorem modbus_receive_exception_code_mapping (tc : TypeCom) (query : List Nat)
    (data_type : Nat) (junk : Int) (ev : List Ev) (resp : List Nat)
    (h : receive_msg tc (compute_response_length tc query data_type) ev
      = some (MB_EXCEPTION, resp))
    (hcrc : tc = TypeCom.rtu →
      check_crc16 resp EXCEPTION_RESPONSE_LENGTH_RTU = (EXCEPTION_RESPONSE_LENGTH_RTU : Int))
    (hfc : 128 + query.getD (TAB_HEADER_LENGTH tc) 0 = resp.getD (TAB_HEADER_LENGTH tc) 0) :
    modbus_receive tc query data_type junk ev =
      some (if resp.getD (TAB_HEADER_LENGTH tc + 1) 0 < NB_TAB_ERROR_MSG
            then -((resp.getD (TAB_HEADER_LENGTH tc + 1) 0 : Nat) : Int)
            else INVALID_EXCEPTION_CODE) := by
  simp only [modbus_receive, h]
  rw [if_neg (show ¬ (0 : Int) ≤ MB_EXCEPTION by decide), if_pos trivial]
  cases tc with
  | rtu =>
    simp only [modbus_receive_exception, hcrc rfl]
    rw [if_neg (show ¬ (True ∧ ((EXCEPTION_RESPONSE_LENGTH_RTU : Nat) : Int) < 0) by decide)]
    rw [if_pos hfc]
  | tcp =>
    simp only [modbus_receive_exception]
    rw [if_neg (show ¬ (TypeCom.tcp = TypeCom.rtu ∧ MB_EXCEPTION < 0) by decide)]
    rw [if_pos hfc]

/-- C5 counterexample: a well-formed RTU exception frame carrying the
exception code 0x00, which lies outside 0x01..0x0B, makes modbus_receive
return 0 instead of INVALID_EXCEPTION_CODE (and 0 is not strictly negative
either). -/
theorem modbus_receive_exception_code_zero :
    modbus_receive TypeCom.rtu [1, 3, 0, 0, 0, 1] 3 0
      [Ev.chunk (modbus_send TypeCom.rtu [1, 131, 0]), Ev.timeout] = some 0 ∧
    (0 : Int) ≠ INVALID_EXCEPTION_CODE ∧ ¬ (0 : Int) < 0 := by decide

/-- Witness for the amended C5 at the legal exception code 0x02. -/
theorem modbus_receive_exception_code_mapping_witness :
    modbus_receive TypeCom.rtu [1, 3, 0, 0, 0, 1] 3 0
      [Ev.chunk (modbus_send TypeCom.rtu [1, 131, 2]), Ev.timeout] = some (-2) := by
  have h := modbus_receive_exception_code_mapping TypeCom.rtu [1, 3, 0, 0, 0, 1] 3 0
    [Ev.chunk (modbus_send TypeCom.rtu [1, 131, 2]), Ev.timeout]
    (modbus_send TypeCom.rtu [1, 131, 2]) (by decide) (fun _ => by decide) (by decide)
  rw [h]
  decide

/-- C6 (amended): for a framed write-multiple-coils or write-multiple-registers
reply, modbus_receive compares only the 16-bit quantity field of the response
(bytes offset+3/offset+4) against the quantity field of the request and
returns the quantity on agreement and INVALID_DATA otherwise; the echoed
address is not examined at all. -/
theorem modbus_receive_write_multiple_qty (tc : TypeCom) (query : List Nat)
    (data_type : Nat) (junk : Int) (ev : List Ev) (ret : Int) (resp : List Nat)
    (h : receive_msg tc (compute_response_length tc query data_type) ev = some (ret, resp))
    (hret : 0 ≤ ret)
    (hfc : resp.getD (TAB_HEADER_LENGTH tc) 0 = FC_FORCE_MULTIPLE_COILS
      ∨ resp.getD (TAB_HEADER_LENGTH tc) 0 = FC_PRESET_MULTIPLE_REGISTERS) :
    modbus_receive tc query data_type junk ev =
      some (if ((((query.getD (TAB_HEADER_LENGTH tc + 3) 0) <<< 8)
                  + query.getD (TAB_HEADER_LENGTH tc + 4) 0 : Nat) : Int)
              = ((((resp.getD (TAB_HEADER_LENGTH tc + 3) 0) <<< 8)
                  ||| resp.getD (TAB_HEADER_LENGTH tc + 4) 0 : Nat) : Int)
            then ((((resp.getD (TAB_HEADER_LENGTH tc + 3) 0) <<< 8)
                  ||| resp.getD (TAB_HEADER_LENGTH tc + 4) 0 : Nat) : Int)
            else INVALID_DATA) := by
  simp only [modbus_receive, h]
  rw [if_pos hret]
  rcases hfc with hfc | hfc <;>
    simp only [modbus_receive_check, hfc, FC_FORCE_MULTIPLE_COILS, FC_PRESET_MULTIPLE_REGISTERS,
      FC_READ_COIL_STATUS, FC_READ_INPUT_STATUS, FC_READ_HOLDING_REGISTERS,
      FC_READ_INPUT_REGISTERS, FC_REPORT_SLAVE_ID] <;>
    norm_num

/-- C6 counterexample: an RTU write-multiple-coils reply that echoes the wrong
address 0x9999 (the request used 0x0013) but the right quantity 10 is
accepted by modbus_receive with result 10 instead of INVALID_DATA. -/
theorem modbus_receive_write_multiple_address_ignored :
    modbus_receive TypeCom.rtu [1, 15, 0, 19, 0, 10] 3 0
      [Ev.chunk (modbus_send TypeCom.rtu [1, 15, 153, 153, 0, 10])] = some 10 ∧
    (modbus_send TypeCom.rtu [1, 15, 153, 153, 0, 10]).getD 2 0 = 153 ∧
    ([1, 15, 0, 19, 0, 10] : List Nat).getD 2 0 = 0 ∧
    (10 : Int) ≠ INVALID_DATA := by decide

/-- Witness for the amended C6: with matching quantities the reply is accepted
and the quantity 10 is returned. -/
theorem modbus_receive_write_multiple_qty_witness :
    modbus_receive TypeCom.rtu [1, 15, 0, 19, 0, 10] 3 0
      [Ev.chunk (modbus_send TypeCom.rtu [1, 15, 0, 19, 0, 10])] = some 10 := by
  have h := modbus_receive_write_multiple_qty TypeCom.rtu [1, 15, 0, 19, 0, 10] 3 0
    [Ev.chunk (modbus_send TypeCom.rtu [1, 15, 0, 19, 0, 10])] 8
    (modbus_send TypeCom.rtu [1, 15, 0, 19, 0, 10]) (by decide) (by decide) (Or.inl (by decide))
  rw [h]
  decide

/-- The transmitted exception frame carries function + 0x80 at the function
offset and the negated exception code in the following byte, on both
transports. -/
theorem exception_frame_getD (tc : TypeCom) (sft : sft_t) (ec : Int) :
    (modbus_send tc (response_exception tc sft ec)).getD (TAB_HEADER_LENGTH tc) 0
      = (sft.function + 128) % 256 ∧
    (modbus_send tc (response_exception tc sft ec)).getD (TAB_HEADER_LENGTH tc + 1) 0
      = ((-ec).emod 256).toNat := by
  cases tc <;> exact ⟨rfl, rfl⟩

/-- The transmitted ILLEGAL_DATA_ADDRESS exception frame, with the sft fields
given explicitly: function + 0x80 at the function offset, code byte 2 next. -/
theorem exception_frame_illegal_address (tc : TypeCom) (sl fn tid : Nat) :
    (modbus_send tc (response_exception tc ⟨sl, fn, tid⟩ ILLEGAL_DATA_ADDRESS)).getD
      (TAB_HEADER_LENGTH tc) 0 = (fn + 128) % 256 ∧
    (modbus_send tc (response_exception tc ⟨sl, fn, tid⟩ ILLEGAL_DATA_ADDRESS)).getD
      (TAB_HEADER_LENGTH tc + 1) 0 = 2 := by
  cases tc <;> exact ⟨rfl, rfl⟩

/-- C7: for every read or write query addressed to the server whose
address + quantity (address + 1 for the reads, matching the source guard
address + nb > map length) exceeds the targeted map array, the frame sent by
modbus_slave_manage has function byte equal to the query function OR 0x80
and the following byte is the positive exception code ILLEGAL_DATA_ADDRESS
= 2, which lies in 0x01..0x0B. -/
theorem modbus_slave_manage_illegal_address (tc : TypeCom) (param_slave : Nat)
    (query : List Nat) (query_length : Int) (m : modbus_mapping_t)
    (hslave : query.getD (TAB_HEADER_LENGTH tc - 1) 0 = param_slave)
    (hfc : query.getD (TAB_HEADER_LENGTH tc) 0 = 1 ∨ query.getD (TAB_HEADER_LENGTH tc) 0 = 2
      ∨ query.getD (TAB_HEADER_LENGTH tc) 0 = 3 ∨ query.getD (TAB_HEADER_LENGTH tc) 0 = 4
      ∨ query.getD (TAB_HEADER_LENGTH tc) 0 = 15 ∨ query.getD (TAB_HEADER_LENGTH tc) 0 = 16)
    (hviol : (((query.getD (TAB_HEADER_LENGTH tc + 1) 0) <<< 8)
        + query.getD (TAB_HEADER_LENGTH tc + 2) 0) % 65536
        + (((query.getD (TAB_HEADER_LENGTH tc + 3) 0) <<< 8)
        + query.getD (TAB_HEADER_LENGTH tc + 4) 0)
      > (if query.getD (TAB_HEADER_LENGTH tc) 0 = 1 ∨ query.getD (TAB_HEADER_LENGTH tc) 0 = 15
         then m.tab_coil_status.length
         else if query.getD (TAB_HEADER_LENGTH tc) 0 = 2 then m.tab_input_status.length
         else if query.getD (TAB_HEADER_LENGTH tc) 0 = 3
            ∨ query.getD (TAB_HEADER_LENGTH tc) 0 = 16
         then m.tab_holding_registers.length
         else m.tab_input_registers.length)) :
    ∃ s, (modbus_slave_manage tc param_slave query query_length m).1 = some s ∧
      s.getD (TAB_HEADER_LENGTH tc) 0 = query.getD (TAB_HEADER_LENGTH tc) 0 ||| 128 ∧
      s.getD (TAB_HEADER_LENGTH tc + 1) 0 = 2 ∧
      1 ≤ s.getD (TAB_HEADER_LENGTH tc + 1) 0 ∧ s.getD (TAB_HEADER_LENGTH tc + 1) 0 ≤ 11 := by
  rcases hfc with hfc | hfc | hfc | hfc | hfc | hfc <;>
    simp only [hfc, gt_iff_lt] at hviol <;>
    simp only [modbus_slave_manage, FC_READ_COIL_STATUS, FC_READ_INPUT_STATUS,
      FC_READ_HOLDING_REGISTERS, FC_READ_INPUT_REGISTERS, FC_FORCE_SINGLE_COIL,
      FC_PRESET_SINGLE_REGISTER, FC_FORCE_MULTIPLE_COILS, FC_PRESET_MULTIPLE_REGISTERS,
      MODBUS_BROADCAST_ADDRESS, hslave, hfc] <;>
    norm_num at hviol ⊢ <;>
    rw [if_pos hviol] <;>
    refine ⟨_, rfl, ?_, ?_, ?_, ?_⟩ <;>
    simp only [← List.getD_eq_getElem?_getD] <;>
    first
      | (rw [(exception_frame_illegal_address tc _ _ _).1]; decide)
      | (rw [(exception_frame_illegal_address tc _ _ _).2]; try decide)

/-- Witness for C7: an RTU read-coils query for 5 coils against an empty coil
map draws the ILLEGAL_DATA_ADDRESS exception frame. -/
theorem modbus_slave_manage_illegal_address_witness :
    ∃ s, (modbus_slave_manage TypeCom.rtu 1 [1, 1, 0, 0, 0, 5] 8 ⟨[], [], [], []⟩).1 = some s ∧
      s.getD 1 0 = 1 ||| 128 ∧ s.getD 2 0 = 2 ∧ 1 ≤ s.getD 2 0 ∧ s.getD 2 0 ≤ 11 :=
  modbus_slave_manage_illegal_address TypeCom.rtu 1 [1, 1, 0, 0, 0, 5] 8 ⟨[], [], [], []⟩
    (by decide) (Or.inl (by decide)) (by decide)

/-- C8: evaluation of the code at the failing input.  With data type 0 (I8) a
delivered byte 0xFF decodes to 255, not to the sign-extended 32-bit value
4294967295 the claim requires; with data type 2 (I16) the word 0xFFFF decodes
to 65535, not to 4294967295: the missing break statements make the unsigned
decode overwrite the signed one. -/
theorem read_registers_value_no_sign_extension :
    read_registers_value [1, 3, 2, 255, 255] 1 0 0 = 255 ∧ (255 : Nat) ≠ 4294967295 ∧
    read_registers_value [1, 3, 2, 255, 255] 1 2 0 = 65535 ∧ (65535 : Nat) ≠ 4294967295 := by
  decide

/-- C9: evaluation of the code at the failing input.  For an RTU
read-exception-status query (FC 0x07) addressed to the server,
modbus_slave_manage still calls modbus_send with the empty zero-length
response, which appends and writes the CRC bytes 0xFF 0xFF of the empty
frame: two bytes are transmitted, not none.  In TCP mode the zero-length
send writes no bytes, as the claim states. -/
theorem modbus_slave_manage_fc7_sends_crc_bytes :
    (modbus_slave_manage TypeCom.rtu 1 [1, 7, 65, 12] 4 ⟨[], [], [], []⟩).1 = some [255, 255] ∧
    ([255, 255] : List Nat) ≠ ([] : List Nat) ∧
    (modbus_slave_manage TypeCom.tcp 1 [0, 1, 0, 0, 0, 2, 1, 7] 8 ⟨[], [], [], []⟩).1
      = some [] := by
  decide

/-- getD is unchanged by a set at a different index. -/
theorem getD_set_ne {l : List Nat} {i j : Nat} (h : i ≠ j) (b : Nat) :
    (l.set i b).getD j 0 = l.getD j 0 := by
  simp [List.getD_eq_getElem?_getD, List.getElem?_set_ne h]

/-- The echoed single-write response (memcpy of the query prefix, then sent)
carries the query function byte at the function offset on both transports. -/
theorem echo_no_exception {tc : TypeCom} {query : List Nat} {ql2 : Int}
    (hk : (TAB_HEADER_LENGTH tc : Int) + 3 ≤ ql2) (hq : TAB_HEADER_LENGTH tc < query.length) :
    (modbus_send tc (query.take ql2.toNat)).getD (TAB_HEADER_LENGTH tc) 0
      = query.getD (TAB_HEADER_LENGTH tc) 0 := by
  have hk2 : TAB_HEADER_LENGTH tc < ql2.toNat := by omega
  have hfl : TAB_HEADER_LENGTH tc < (query.take ql2.toNat).length := by
    rw [List.length_take]
    omega
  cases tc with
  | rtu =>
    show ((query.take ql2.toNat) ++ _).getD _ 0 = _
    rw [getD_append_lt hfl, getD_take_lt hk2]
  | tcp =>
    show (((query.take ql2.toNat).set 4 _).set 5 _).getD _ 0 = _
    rw [getD_set_ne (by decide), getD_set_ne (by decide), getD_take_lt hk2]

/-- The write-multiple response (header basis plus the echoed address/quantity
slice, then sent) carries function mod 256 at the function offset. -/
theorem write_multi_response_fc (tc : TypeCom) (sl fn tid : Nat) (slice : List Nat) :
    (modbus_send tc (build_response_basis tc ⟨sl, fn, tid⟩ ++ slice)).getD
      (TAB_HEADER_LENGTH tc) 0 = fn % 256 := by
  cases tc <;> rfl

/-- The RTU checksum subtraction before the single-write echo still leaves at
least header + 3 bytes of echoed query. -/
theorem adjusted_len_ge {tc : TypeCom} {query_length : Int}
    (hlen : (TAB_HEADER_LENGTH tc : Int) + 5 + (TAB_CHECKSUM_LENGTH tc : Int) ≤ query_length) :
    (TAB_HEADER_LENGTH tc : Int) + 3
      ≤ (if tc = TypeCom.rtu then query_length - (CHECKSUM_LENGTH_RTU : Int)
         else query_length) := by
  cases tc <;>
    simp only [TAB_HEADER_LENGTH, TAB_CHECKSUM_LENGTH, HEADER_LENGTH_RTU, HEADER_LENGTH_TCP,
      CHECKSUM_LENGTH_RTU, CHECKSUM_LENGTH_TCP, if_pos, if_neg, reduceIte] at hlen ⊢ <;>
    omega

/-- C10: whenever modbus_slave_manage answers with an exception response (the
sent frame carries query-function + 0x80 at the function offset, as every
ILLEGAL_DATA_ADDRESS / ILLEGAL_DATA_VALUE response does), the four map arrays
are unchanged; and the map changes at all only for the four write function
codes 0x05, 0x06, 0x0F, 0x10, whose normal responses echo the plain function
byte. -/
theorem modbus_slave_manage_exception_preserves_map (tc : TypeCom) (param_slave : Nat)
    (query : List Nat) (query_length : Int) (m : modbus_mapping_t)
    (hlen : (TAB_HEADER_LENGTH tc : Int) + 5 + (TAB_CHECKSUM_LENGTH tc : Int) ≤ query_length) :
    (∀ s, (modbus_slave_manage tc param_slave query query_length m).1 = some s →
      s.getD (TAB_HEADER_LENGTH tc) 0 = (query.getD (TAB_HEADER_LENGTH tc) 0 + 128) % 256 →
      (modbus_slave_manage tc param_slave query query_length m).2 = m) ∧
    ((modbus_slave_manage tc param_slave query query_length m).2 ≠ m →
      query.getD (TAB_HEADER_LENGTH tc) 0 = 5 ∨ query.getD (TAB_HEADER_LENGTH tc) 0 = 6
      ∨ query.getD (TAB_HEADER_LENGTH tc) 0 = 15
      ∨ query.getD (TAB_HEADER_LENGTH tc) 0 = 16) := by
  by_cases hg : query.getD (TAB_HEADER_LENGTH tc - 1) 0 ≠ param_slave
      ∧ query.getD (TAB_HEADER_LENGTH tc - 1) 0 ≠ MODBUS_BROADCAST_ADDRESS
  · simp only [modbus_slave_manage]
    rw [if_pos hg]
    exact ⟨fun s hs _ => Option.noConfusion hs, fun hne => absurd rfl hne⟩
  · simp only [modbus_slave_manage]
    rw [if_neg hg]
    by_cases h1 : query.getD (TAB_HEADER_LENGTH tc) 0 = FC_READ_COIL_STATUS
    · rw [if_pos h1]
      split_ifs <;> exact ⟨fun s _ _ => rfl, fun hne => absurd rfl hne⟩
    · rw [if_neg h1]
      by_cases h2 : query.getD (TAB_HEADER_LENGTH tc) 0 = FC_READ_INPUT_STATUS
      · rw [if_pos h2]
        split_ifs <;> exact ⟨fun s _ _ => rfl, fun hne => absurd rfl hne⟩
      · rw [if_neg h2]
        by_cases h3 : query.getD (TAB_HEADER_LENGTH tc) 0 = FC_READ_HOLDING_REGISTERS
        · rw [if_pos h3]
          split_ifs <;> exact ⟨fun s _ _ => rfl, fun hne => absurd rfl hne⟩
        · rw [if_neg h3]
          by_cases h4 : query.getD (TAB_HEADER_LENGTH tc) 0 = FC_READ_INPUT_REGISTERS
          · rw [if_pos h4]
            split_ifs <;> exact ⟨fun s _ _ => rfl, fun hne => absurd rfl hne⟩
          · rw [if_neg h4]
            by_cases h5 : query.getD (TAB_HEADER_LENGTH tc) 0 = FC_FORCE_SINGLE_COIL
            · rw [if_pos h5]
              by_cases haddr : (query.getD (TAB_HEADER_LENGTH tc + 1) 0 <<< 8
                  + query.getD (TAB_HEADER_LENGTH tc + 2) 0) % 65536
                  ≥ m.tab_coil_status.length
              · rw [if_pos haddr]
                exact ⟨fun s _ _ => rfl, fun hne => absurd rfl hne⟩
              · rw [if_neg haddr]
                by_cases hdata : query.getD (TAB_HEADER_LENGTH tc + 3) 0 <<< 8
                    + query.getD (TAB_HEADER_LENGTH tc + 4) 0 = 65280
                    ∨ query.getD (TAB_HEADER_LENGTH tc + 3) 0 <<< 8
                    + query.getD (TAB_HEADER_LENGTH tc + 4) 0 = 0
                · rw [if_pos hdata]
                  constructor
                  · intro s hs heq
                    exfalso
                    obtain rfl := Option.some.inj hs
                    rw [echo_no_exception (adjusted_len_ge hlen)
                      (lt_length_of_getD_ne (by rw [h5]; decide))] at heq
                    omega
                  · exact fun _ => Or.inl h5
                · rw [if_neg hdata]
                  exact ⟨fun s _ _ => rfl, fun hne => absurd rfl hne⟩
            · rw [if_neg h5]
              by_cases h6 : query.getD (TAB_HEADER_LENGTH tc) 0 = FC_PRESET_SINGLE_REGISTER
              · rw [if_pos h6]
                by_cases haddr : (query.getD (TAB_HEADER_LENGTH tc + 1) 0 <<< 8
                    + query.getD (TAB_HEADER_LENGTH tc + 2) 0) % 65536
                    ≥ m.tab_holding_registers.length
                · rw [if_pos haddr]
                  exact ⟨fun s _ _ => rfl, fun hne => absurd rfl hne⟩
                · rw [if_neg haddr]
                  constructor
                  · intro s hs heq
                    exfalso
                    obtain rfl := Option.some.inj hs
                    rw [echo_no_exception (adjusted_len_ge hlen)
                      (lt_length_of_getD_ne (by rw [h6]; decide))] at heq
                    omega
                  · exact fun _ => Or.inr (Or.inl h6)
              · rw [if_neg h6]
                by_cases h7 : query.getD (TAB_HEADER_LENGTH tc) 0 = FC_FORCE_MULTIPLE_COILS
                · rw [if_pos h7]
                  by_cases haddr : (query.getD (TAB_HEADER_LENGTH tc + 1) 0 <<< 8
                      + query.getD (TAB_HEADER_LENGTH tc + 2) 0) % 65536
                      + (query.getD (TAB_HEADER_LENGTH tc + 3) 0 <<< 8
                      + query.getD (TAB_HEADER_LENGTH tc + 4) 0)
                      > m.tab_coil_status.length
                  · rw [if_pos haddr]
                    exact ⟨fun s _ _ => rfl, fun hne => absurd rfl hne⟩
                  · rw [if_neg haddr]
                    constructor
                    · intro s hs heq
                      exfalso
                      obtain rfl := Option.some.inj hs
                      rw [write_multi_response_fc] at heq
                      omega
                    · exact fun _ => Or.inr (Or.inr (Or.inl h7))
                · rw [if_neg h7]
                  by_cases h8 : query.getD (TAB_HEADER_LENGTH tc) 0
                      = FC_PRESET_MULTIPLE_REGISTERS
                  · rw [if_pos h8]
                    by_cases haddr : (query.getD (TAB_HEADER_LENGTH tc + 1) 0 <<< 8
                        + query.getD (TAB_HEADER_LENGTH tc + 2) 0) % 65536
                        + (query.getD (TAB_HEADER_LENGTH tc + 3) 0 <<< 8
                        + query.getD (TAB_HEADER_LENGTH tc + 4) 0)
                        > m.tab_holding_registers.length
                    · rw [if_pos haddr]
                      exact ⟨fun s _ _ => rfl, fun hne => absurd rfl hne⟩
                    · rw [if_neg haddr]
                      constructor
                      · intro s hs heq
                        exfalso
                        obtain rfl := Option.some.inj hs
                        rw [write_multi_response_fc] at heq
                        omega
                      · exact fun _ => Or.inr (Or.inr (Or.inr h8))
                  · rw [if_neg h8]
                    exact ⟨fun s _ _ => rfl, fun hne => absurd rfl hne⟩

/-- Witness for C10: an RTU write-single-coil query whose address 7 exceeds
the one-coil map draws an exception response and leaves the map unchanged. -/
theorem modbus_slave_manage_exception_preserves_map_witness :
    ((TAB_HEADER_LENGTH TypeCom.rtu : Int) + 5 + (TAB_CHECKSUM_LENGTH TypeCom.rtu : Int) ≤ 8) ∧
    (modbus_slave_manage TypeCom.rtu 1 [1, 5, 0, 7, 255, 0] 8 ⟨[0], [], [], []⟩).2
      = ⟨[0], [], [], []⟩ :=
  ⟨by decide,
   (modbus_slave_manage_exception_preserves_map TypeCom.rtu 1 [1, 5, 0, 7, 255, 0] 8
       ⟨[0], [], [], []⟩ (by decide)).1
     (modbus_send TypeCom.rtu (response_exception TypeCom.rtu ⟨1, 5, 0⟩ ILLEGAL_DATA_ADDRESS))
     (by decide) (by decide)⟩

end ModbusTool
